import Mathlib

/-!
Verification of the `bigmodel_auto_label` repository (files `qwen_ask.py` and
`qwen_ask_api.py`).

The repository sends one dashcam image to a vision-language model and asks it
to classify the driving scene, returning a strict JSON object.  This file
shallowly embeds the repository's own logic:

* `b64encode` / `b64decode` — the base64 codec used by
  `QwenAPIClient.encode_image_to_base64` (Python's `base64.b64encode`,
  RFC 4648 with `=` padding);
* the two prompt strings (`qwen_ask_prompt` from `qwen_ask.py`,
  `create_prompt` from `qwen_ask_api.py`);
* `analyze_image` — the control flow of `QwenAPIClient.analyze_image`,
  with the external world (filesystem, PIL, HTTP, `json.loads`) passed in
  as an explicit `World` record, Python exceptions as an `Except` error
  component, and counters for the number of HTTP POSTs and JSON parse
  attempts performed.

Machine integers do not occur; strings are Lean `String`/`List Char`; bytes
are `Nat` with an explicit `< 256` bound.
-/

/-! ## Base64 codec (`base64.b64encode` as used by `encode_image_to_base64`) -/

/-- The 64-character base64 alphabet, index 0 to 63. -/
def base64Alphabet : List Char :=
  "ABCDEFGHIJKLMNOPQRSTUVWXYZabcdefghijklmnopqrstuvwxyz0123456789+/".data

/-- The base64 padding character. -/
def padChar : Char := '='

/-- Character for a 6-bit group (only used with argument below 64). -/
def encChar (b : Nat) : Char := base64Alphabet.getD b 'A'

/-- Index of a character in the base64 alphabet, `none` for non-alphabet
characters (including the padding character). -/
def decChar (c : Char) : Option Nat :=
  let i := base64Alphabet.indexOf c
  if i < 64 then some i else none

/-- Base64 encoding of a byte list: groups of three bytes become four
alphabet characters; a trailing group of one or two bytes is padded with
one or two `=` characters. -/
def b64encode : List Nat → List Char
  | [] => []
  | [b0] => [encChar (b0 / 4), encChar (b0 % 4 * 16), padChar, padChar]
  | [b0, b1] =>
      [encChar (b0 / 4), encChar (b0 % 4 * 16 + b1 / 16), encChar (b1 % 16 * 4), padChar]
  | b0 :: b1 :: b2 :: rest =>
      encChar (b0 / 4) :: encChar (b0 % 4 * 16 + b1 / 16) ::
        encChar (b1 % 16 * 4 + b2 / 64) :: encChar (b2 % 64) :: b64encode rest

/-- Base64 decoding: `none` on any malformed input (wrong length, characters
outside the alphabet, padding anywhere but the final quad). -/
def b64decode : List Char → Option (List Nat)
  | [] => some []
  | c0 :: c1 :: c2 :: c3 :: rest =>
      match decChar c0, decChar c1 with
      | some i0, some i1 =>
          if c2 = padChar then
            if c3 = padChar ∧ rest = [] then some [i0 * 4 + i1 / 16] else none
          else
            match decChar c2 with
            | some i2 =>
                if c3 = padChar then
                  if rest = [] then some [i0 * 4 + i1 / 16, i1 % 16 * 16 + i2 / 4] else none
                else
                  match decChar c3, b64decode rest with
                  | some i3, some bs =>
                      some ((i0 * 4 + i1 / 16) :: (i1 % 16 * 16 + i2 / 4) ::
                            (i2 % 4 * 64 + i3) :: bs)
                  | _, _ => none
            | none => none
      | _, _ => none
  | _ => none

theorem decChar_encChar : ∀ b : Nat, b < 64 → decChar (encChar b) = some b := by
  decide

theorem encChar_ne_pad : ∀ b : Nat, b < 64 → encChar b ≠ padChar := by
  decide

/-- Decoding inverts encoding on byte lists. -/
theorem b64decode_b64encode (l : List Nat) (h : ∀ b ∈ l, b < 256) :
    b64decode (b64encode l) = some l := by
  induction l using b64encode.induct with
  | case1 => simp [b64encode, b64decode]
  | case2 b0 =>
      have h0 : b0 < 256 := h b0 (by simp)
      simp [b64encode, b64decode,
        decChar_encChar (b0 / 4) (by omega),
        decChar_encChar (b0 % 4 * 16) (by omega)]
      omega
  | case3 b0 b1 =>
      have h0 : b0 < 256 := h b0 (by simp)
      have h1 : b1 < 256 := h b1 (by simp)
      have hne : encChar (b1 % 16 * 4) ≠ padChar := encChar_ne_pad _ (by omega)
      simp [b64encode, b64decode, hne,
        decChar_encChar (b0 / 4) (by omega),
        decChar_encChar (b0 % 4 * 16 + b1 / 16) (by omega),
        decChar_encChar (b1 % 16 * 4) (by omega)]
      omega
  | case4 b0 b1 b2 rest ih =>
      have h0 : b0 < 256 := h b0 (by simp)
      have h1 : b1 < 256 := h b1 (by simp)
      have h2 : b2 < 256 := h b2 (by simp)
      have hrest : ∀ b ∈ rest, b < 256 := fun b hb => h b (by simp [hb])
      have hne2 : encChar (b1 % 16 * 4 + b2 / 64) ≠ padChar := encChar_ne_pad _ (by omega)
      have hne3 : encChar (b2 % 64) ≠ padChar := encChar_ne_pad _ (by omega)
      simp [b64encode, b64decode, hne2, hne3, ih hrest,
        decChar_encChar (b0 / 4) (by omega),
        decChar_encChar (b0 % 4 * 16 + b1 / 16) (by omega),
        decChar_encChar (b1 % 16 * 4 + b2 / 64) (by omega),
        decChar_encChar (b2 % 64) (by omega)]
      refine ⟨by omega, by omega, by omega⟩

/-! ## JSON-like Python values

Python values flowing through `analyze_image` (the parsed HTTP response and
the parsed content) are JSON-like: `None`, booleans, numbers, strings, lists
and string-keyed dicts. -/

inductive JsonVal where
  | null
  | bool (b : Bool)
  | num (n : Int)
  | str (s : String)
  | arr (elems : List JsonVal)
  | obj (fields : List (String × JsonVal))

/-- Structural equality on `JsonVal`, modelling Python `==` as used by the
`in` operator on lists. -/
def jsonBeq : JsonVal → JsonVal → Bool
  | .null, .null => true
  | .bool a, .bool b => a == b
  | .num a, .num b => a == b
  | .str a, .str b => a == b
  | .arr [], .arr [] => true
  | .arr (x :: xs), .arr (y :: ys) => jsonBeq x y && jsonBeq (.arr xs) (.arr ys)
  | .obj [], .obj [] => true
  | .obj ((k, v) :: kvs), .obj ((k2, v2) :: lvs) =>
      k == k2 && jsonBeq v v2 && jsonBeq (.obj kvs) (.obj lvs)
  | _, _ => false

mutual

/-- Modelled from Python's builtin `str()`/`repr()` on JSON-like values (an
external builtin; its exact output never matters to the claims, only that the
`elif not isinstance(content, str)` branch turns the value into some string). -/
def pyReprStr : JsonVal → String
  | .null => "None"
  | .bool true => "True"
  | .bool false => "False"
  | .num n => toString n
  | .str s => (Char.ofNat 39).toString ++ s ++ (Char.ofNat 39).toString
  | .arr elems => "[" ++ pyReprElems elems ++ "]"
  | .obj fields => "\x7b" ++ pyReprFields fields ++ "\x7d"

/-- Comma-joined representations of list elements. -/
def pyReprElems : List JsonVal → String
  | [] => ""
  | [x] => pyReprStr x
  | x :: rest => pyReprStr x ++ ", " ++ pyReprElems rest

/-- Comma-joined representations of dict entries. -/
def pyReprFields : List (String × JsonVal) → String
  | [] => ""
  | [(k, v)] => pyReprStr (.str k) ++ ": " ++ pyReprStr v
  | (k, v) :: rest => pyReprStr (.str k) ++ ": " ++ pyReprStr v ++ ", " ++ pyReprFields rest

end

/-! ## Python exceptions -/

/-- Exception classes that can arise in `analyze_image`.  Only the
distinction `RequestException` / everything else matters to the two outer
`except` clauses; `FileNotFoundError` is raised by `analyze_image` itself
before its `try` block. -/
inductive ExnKind where
  | fileNotFound
  | requestException
  | keyError
  | indexError
  | typeError
  | attributeError
deriving DecidableEq

/-- A Python exception: its class and its message (`str(e)`). -/
structure PyExn where
  kind : ExnKind
  msg : String
deriving DecidableEq

/-! ## Dictionary and subscript operations -/

/-- Lookup in a string-keyed dict (association list, first match wins). -/
def lookupField : List (String × JsonVal) → String → Option JsonVal
  | [], _ => none
  | (k, v) :: rest, key => if k = key then some v else lookupField rest key

/-- Python `key in dict`. -/
def hasField (fields : List (String × JsonVal)) (key : String) : Bool :=
  (lookupField fields key).isSome

/-- Python `s.startswith(p)` on character lists. -/
def pyStartswith : List Char → List Char → Bool
  | _, [] => true
  | [], _ :: _ => false
  | c :: s, q :: p => c == q && pyStartswith s p

/-- Python substring test `needle in hay`. -/
def strContains : List Char → List Char → Bool
  | [], needle => needle.isEmpty
  | hay@(_ :: rest), needle => pyStartswith hay needle || strContains rest needle

/-- Python `key in v` for the values `v` that occur here: dict key test,
substring test on strings, membership (`==` on elements) on lists, and a
`TypeError` on non-iterables. -/
def pyContains (v : JsonVal) (key : String) : Except PyExn Bool :=
  match v with
  | .obj fields => .ok (hasField fields key)
  | .str s => .ok (strContains s.data key.data)
  | .arr elems => .ok (elems.any fun x => jsonBeq x (.str key))
  | _ => .error ⟨.typeError, "argument is not iterable"⟩

/-- Python `v[key]` for a string key: dict lookup (`KeyError` when absent),
`TypeError` on strings, lists and non-subscriptable values. -/
def pySubscriptStr (v : JsonVal) (key : String) : Except PyExn JsonVal :=
  match v with
  | .obj fields =>
      match lookupField fields key with
      | some x => .ok x
      | none => .error ⟨.keyError, key⟩
  | .str _ => .error ⟨.typeError, "string indices must be integers"⟩
  | .arr _ => .error ⟨.typeError, "list indices must be integers"⟩
  | _ => .error ⟨.typeError, "object is not subscriptable"⟩

/-- Python `v[0]`: head of a list (`IndexError` when empty), first character
of a string, `KeyError` on string-keyed dicts, `TypeError` otherwise. -/
def pyIndex0 : JsonVal → Except PyExn JsonVal
  | .arr (x :: _) => .ok x
  | .arr [] => .error ⟨.indexError, "list index out of range"⟩
  | .str s =>
      match s.data with
      | c :: _ => .ok (.str (String.mk [c]))
      | [] => .error ⟨.indexError, "string index out of range"⟩
  | .obj _ => .error ⟨.keyError, "0"⟩
  | _ => .error ⟨.typeError, "object is not subscriptable"⟩

/-! ## The two prompt strings -/

/-- The fixed instruction returned by `QwenAPIClient.create_prompt` in
`qwen_ask_api.py` (the concatenation of its adjacent string literals). -/
def create_prompt : String :=
  "你是一位驾驶场景标注专家。\n\n输入：\n1. 输入图片是车载相机拍摄的一张图片。\n\n任务：\n1. 检查你当前所处的地方是否是以下位置：\n- 路口\n- 直路\n- 匝道\n- 弯道\n\n2. 检查图片中是否存在以下物体。车辆（vehicle）可以是汽车、公交车、卡车、摩托车手、滑板车等。交通元素（traffic_element）包括交通标志和交通信号灯。道路危险（road_hazard）可能包括危险道路条件、道路碎片、障碍物等。冲突车辆（conflicting_vehicle）是指可能与自车未来路径发生潜在冲突的车辆。需审计的对象类别：\n- nearby_vehicle (附近车辆)\n- pedestrian (行人)\n- cyclist (骑行者)\n- construction (施工)\n- traffic_element (交通元素)\n- weather_condition (天气条件)\n- road_hazard (道路危险)\n- emergency_vehicle (紧急车辆)\n- animal (动物)\n- special_vehicle (特殊车辆)\n- conflicting_vehicle (冲突车辆)\n- door_opening_vehicle (开门车辆)\n3. 对每个类别输出\"yes\"或\"no\"（不能遗漏）。\n\n输出格式（严格的JSON，无额外键，无注释）：\n\n\x7b\n\"scenarios\": \x7b\n\"junction\": \"yes | no\",\n\"straight_road\": \"yes | no\",\n\"ramp_entrance\": \"yes | no\",\n\"ramp_exit\": \"yes | no\",\n\"curve\": \"yes | no\"\n\x7d,\n\"critical_objects\": \x7b\n\"nearby_vehicle\": \"yes | no\",\n\"pedestrian\": \"yes | no\",\n\"cyclist\": \"yes | no\",\n\"construction\": \"yes | no\",\n\"traffic_element\": \"yes | no\",\n\"weather_condition\": \"yes | no\",\n\"road_hazard\": \"yes | no\",\n\"emergency_vehicle\": \"yes | no\",\n\"animal\": \"yes | no\",\n\"special_vehicle\": \"yes | no\",\n\"conflicting_vehicle\": \"yes | no\",\n\"door_opening_vehicle\": \"yes | no\"\n\x7d\n\x7d"

/-- The fixed instruction embedded in the `messages` structure of
`qwen_ask.py` (the concatenation of its adjacent string literals). -/
def qwen_ask_prompt : String :=
  "你是一位驾驶场景标注专家。\n\n输入：\n1. 输入图片是车载相机拍摄的一张图片。\n\n任务：\n1. 检查你当前所处的地方是否是以下位置：\n- 路口\n- 直路\n- 匝道\n- 弯道\n\n2. 检查图片中是否存在以下物体。车辆（vehicle）可以是汽车、公交车、卡车、摩托车手、滑板车等。交通元素（traffic_element）包括交通标志和交通信号灯。道路危险（road_hazard）可能包括危险道路条件、道路碎片、障碍物等。冲突车辆（conflicting_vehicle）是指可能与自车未来路径发生潜在冲突的车辆。需审计的对象类别：\n- nearby_vehicle (附近车辆)\n- pedestrian (行人)\n- cyclist (骑行者)\n- construction (施工)\n- traffic_element (交通元素)\n- weather_condition (天气条件)\n- road_hazard (道路危险)\n- emergency_vehicle (紧急车辆)\n- animal (动物)\n- special_vehicle (特殊车辆)\n- conflicting_vehicle (冲突车辆)\n- door_opening_vehicle (开门车辆)\n3. 对每个类别输出“yes”或“no”（不能遗漏）。\n\n输出格式（严格的JSON，无额外键，无注释）：\n\n\x7b\n\"scenarios\": \x7b\n\"junction\": \"yes | no\",\n\"straight_road\": \"yes | no\",\n\"ramp_entrance\": \"yes | no\",\n\"ramp_exit\": \"yes | no\",\n\"curve\": \"yes | no\"\n\x7d,\n\"critical_objects\": \x7b\n\"nearby_vehicle\": \"yes | no\",\n\"pedestrian\": \"yes | no\",\n\"cyclist\": \"yes | no\",\n\"construction\": \"yes | no\",\n\"traffic_element\": \"yes | no\",\n\"weather_condition\": \"yes | no\",\n\"road_hazard\": \"yes | no\",\n\"emergency_vehicle\": \"yes | no\",\n\"animal\": \"yes | no\",\n\"special_vehicle\": \"yes | no\",\n\"conflicting_vehicle\": \"yes | no\",\n\"door_opening_vehicle\": \"yes | no\"\n\x7d\n\x7d"

/-! ## The API client -/

/-- State of a `QwenAPIClient` instance: the four fields set by `__init__`. -/
structure QwenAPIClient where
  api_key : String
  model : String
  base_url : String
  available_models : List (String × String)
deriving DecidableEq

/-- The `__init__` constructor of `QwenAPIClient`. -/
def initClient (apiKey : String) (model : String := "qwen2.5-vl-32b") : QwenAPIClient :=
  { api_key := apiKey
    model := model
    base_url := "https://dashscope.aliyuncs.com/api/v1/services/aigc/multimodal-generation/generation"
    available_models :=
      [("qwen2.5-vl-32b", "qwen-vl-plus"), ("qwen2.5-vl-72b", "qwen-vl-max")] }

/-- Python `d.get(key, default)` on a string-to-string dict. -/
def dictGetD : List (String × String) → String → String → String
  | [], _, dflt => dflt
  | (k, v) :: rest, key, dflt => if key = k then v else dictGetD rest key dflt

/-- Base64 encoding step of `encode_image_to_base64`: its argument is the
JPEG serialization that PIL produces for the (RGB-converted, if originally
RGBA) image — PIL itself is an external library, so the JPEG bytes enter as
data; the repository's own step is the base64 encoding of those bytes. -/
def encode_image_to_base64 (jpegBytes : List Nat) : String :=
  String.mk (b64encode jpegBytes)

/-- The request payload built by `analyze_image`: the resolved model name,
the `"image"` data URL and the `"text"` prompt of the single user message,
and the `max_tokens` parameter.  (The float `temperature: 0.1` is not
modelled; no claim concerns it.) -/
structure Payload where
  model : String
  imageEntry : String
  textEntry : String
  maxTokens : Nat
deriving DecidableEq

/-- Payload construction from `analyze_image` (lines 131–155 of
`qwen_ask_api.py`). -/
def buildPayload (c : QwenAPIClient) (imageBase64 : String) : Payload :=
  { model := dictGetD c.available_models c.model c.model
    imageEntry := "data:image/jpeg;base64," ++ imageBase64
    textEntry := create_prompt
    maxTokens := 512 }

/-! ## Markdown fence stripping -/

/-- Python `s.endswith(p)`. -/
def pyEndswith (s p : List Char) : Bool :=
  pyStartswith s.reverse p.reverse

/-- Python `s[:-n]` for `n ≥ 1`: drop the last `n` characters (empty result
when the string is shorter than `n`). -/
def pyDropRight (n : Nat) (s : List Char) : List Char :=
  (s.reverse.drop n).reverse

/-- Python `str.isspace` characters relevant to `str.strip()` (ASCII). -/
def pyIsSpace (c : Char) : Bool :=
  c == ' ' || c == '\t' || c == '\n' || c == '\r' || c == '\x0b' || c == '\x0c'

/-- Python `s.lstrip()`. -/
def lstripChars (s : List Char) : List Char :=
  s.dropWhile pyIsSpace

/-- Python `s.rstrip()`. -/
def rstripChars (s : List Char) : List Char :=
  (s.reverse.dropWhile pyIsSpace).reverse

/-- Python `s.strip()`. -/
def pyStrip (s : List Char) : List Char :=
  rstripChars (lstripChars s)

/-- The first cleaning step (lines 180–181): `content[7:]` when the content
starts with three backticks followed by `json`. -/
def stripJsonOpenFence (content : List Char) : List Char :=
  if pyStartswith content ("```json".data) then content.drop 7 else content

/-- The second cleaning step (lines 182–183): `content[:-3]` when the
content ends with three backticks. -/
def stripCloseFence (content : List Char) : List Char :=
  if pyEndswith content ("```".data) then pyDropRight 3 content else content

/-- The markdown-cleaning step of `analyze_image` (lines 179–184): the two
fence steps followed by `strip()`. -/
def stripFences (content : List Char) : List Char :=
  pyStrip (stripCloseFence (stripJsonOpenFence content))

/-! ## The control flow of `analyze_image` -/

/-- The external world seen by one call of `analyze_image`:

* `fileExists` — the result of `os.path.exists(image_path)`;
* `pilJpegBytes` — PIL's JPEG serialization of the image at `image_path`
  (or the exception `Image.open`/`img.save` raises);
* `httpPost` — `requests.post(...)` followed by `raise_for_status()` and
  `response.json()`, as a function of the payload sent: either the parsed
  response body or an exception;
* `jsonLoads` — `json.loads`, either a parsed value or a
  `json.JSONDecodeError` message. -/
structure World where
  fileExists : Bool
  pilJpegBytes : Except PyExn (List Nat)
  httpPost : Payload → Except PyExn JsonVal
  jsonLoads : List Char → Except String JsonVal

/-- Outcome of one call of `analyze_image`: the returned value (`.ok`) or
the exception that propagated to the caller (`.error`), the client state at
exit, the payload of the HTTP request that was issued (if any), and how many
HTTP POSTs and `json.loads` calls were made. -/
structure AnalyzeOut where
  result : Except PyExn JsonVal
  clientAfter : QwenAPIClient
  sentPayload : Option Payload
  postCount : Nat
  parseCount : Nat

/-- The `if "output" in result and "choices" in result["output"]` test
(line 166); evaluating the test itself can raise. -/
def checkOutputChoices (result : JsonVal) : Except PyExn Bool :=
  match pyContains result "output" with
  | .error e => .error e
  | .ok false => .ok false
  | .ok true =>
      match pySubscriptStr result "output" with
      | .error e => .error e
      | .ok out => pyContains out "choices"

/-- The extraction `result["output"]["choices"][0]["message"]["content"]`
(line 167). -/
def extractRawContent (result : JsonVal) : Except PyExn JsonVal := do
  let out ← pySubscriptStr result "output"
  let choices ← pySubscriptStr out "choices"
  let c0 ← pyIndex0 choices
  let msg ← pySubscriptStr c0 "message"
  pySubscriptStr msg "content"

/-- The `isinstance` chain normalizing `content` (lines 170–175): a
non-empty list whose head contains `"text"` is replaced by `head["text"]`, a
list by its head (or `""` when empty), a string is kept, and anything else
goes through `str()`. -/
def normalizeContent (content : JsonVal) : Except PyExn JsonVal :=
  match content with
  | .arr (x :: _) =>
      match pyContains x "text" with
      | .error e => .error e
      | .ok true => pySubscriptStr x "text"
      | .ok false => .ok x
  | .arr [] => .ok (.str "")
  | .str s => .ok (.str s)
  | v => .ok (.str (pyReprStr v))

/-- The value reaching `content.startswith(...)` must be a string; a
non-string raises `AttributeError` there (line 180). -/
def asStr : JsonVal → Except PyExn (List Char)
  | .str s => .ok s.data
  | _ => .error ⟨.attributeError, "object has no attribute startswith"⟩

/-- The full content pipeline after a successful `output`/`choices` test:
raw extraction, `isinstance` normalization, and the string requirement. -/
def contentStr (result : JsonVal) : Except PyExn (List Char) :=
  extractRawContent result >>= normalizeContent >>= asStr

/-- The two outer `except` clauses (lines 195–198): a `RequestException`
maps to `请求失败`, any other exception to `处理失败`. -/
def outerCatch (e : PyExn) : JsonVal :=
  match e.kind with
  | .requestException => .obj [("error", .str ("请求失败: " ++ e.msg))]
  | _ => .obj [("error", .str ("处理失败: " ++ e.msg))]

/-- Does a returned value carry an `"error"` key? -/
def isErrorDict : JsonVal → Bool
  | .obj fields => hasField fields "error"
  | _ => false

/-- The `try`/`except` region of `analyze_image` given the outcome of the
HTTP POST (lines 157–198 of `qwen_ask_api.py`): the value returned to the
caller paired with the number of `json.loads` calls made.  Every exception
raised in the region is caught by one of the two `except` clauses, so the
region always returns. -/
def tryResult (w : World) (resp : Except PyExn JsonVal) : JsonVal × Nat :=
  match resp with
  | .error e => (outerCatch e, 0)
  | .ok result0 =>
      match checkOutputChoices result0 with
      | .error e => (outerCatch e, 0)
      | .ok false => (.obj [("error", .str "API响应格式错误"), ("response", result0)], 0)
      | .ok true =>
          match contentStr result0 with
          | .error e => (outerCatch e, 0)
          | .ok s =>
              match w.jsonLoads (stripFences s) with
              | .ok v => (v, 1)
              | .error _ =>
                  (.obj [("error", .str "JSON解析失败"),
                    ("raw_content", .str (String.mk (stripFences s)))], 1)

/-- Shallow embedding of `QwenAPIClient.analyze_image` (lines 108–198 of
`qwen_ask_api.py`).  The file-existence check and the image encoding run
before the `try` block, so their failures leave as `.error`; everything from
the HTTP POST on is inside the `try` (`tryResult`) and is mapped to returned
dictionaries by the `except` clauses. -/
def analyze_image (c : QwenAPIClient) (imagePath : String) (w : World) : AnalyzeOut :=
  if w.fileExists = false then
    { result := .error ⟨.fileNotFound, "图片文件不存在: " ++ imagePath⟩,
      clientAfter := c, sentPayload := none, postCount := 0, parseCount := 0 }
  else
    match w.pilJpegBytes with
    | .error e =>
        { result := .error e, clientAfter := c, sentPayload := none,
          postCount := 0, parseCount := 0 }
    | .ok jpegBytes =>
        { result := .ok (tryResult w
            (w.httpPost (buildPayload c (encode_image_to_base64 jpegBytes)))).1,
          clientAfter := c,
          sentPayload := some (buildPayload c (encode_image_to_base64 jpegBytes)),
          postCount := 1,
          parseCount := (tryResult w
            (w.httpPost (buildPayload c (encode_image_to_base64 jpegBytes)))).2 }

/-! ## Helper lemmas -/

/-- Both `except` clauses return a dict with an `"error"` key. -/
theorem isErrorDict_outerCatch (e : PyExn) : isErrorDict (outerCatch e) = true := by
  cases e with
  | mk kind msg =>
      cases kind <;> simp [outerCatch, isErrorDict, hasField, lookupField]

/-! ## Claim theorems -/

/-- **C6.** For every image that `encode_image_to_base64` processes
successfully, the returned string is valid base64 — decoding succeeds — and
base64-decoding it yields exactly the JPEG serialization of the
(RGB-converted, if originally RGBA) image: decoding inverts encoding. -/
theorem C6_base64_roundtrip (jpegBytes : List Nat) (h : ∀ b ∈ jpegBytes, b < 256) :
    b64decode (encode_image_to_base64 jpegBytes).data = some jpegBytes :=
  b64decode_b64encode jpegBytes h

/-- Witness for C6 at the four-byte JPEG header `FF D8 FF E0`. -/
theorem C6_base64_roundtrip_witness :
    (∀ b ∈ ([255, 216, 255, 224] : List Nat), b < 256) ∧
      b64decode (encode_image_to_base64 [255, 216, 255, 224]).data
        = some [255, 216, 255, 224] :=
  ⟨by decide, C6_base64_roundtrip [255, 216, 255, 224] (by decide)⟩

/-- **C4.** Every call of `analyze_image` issues at most one HTTP POST, on
every outcome: no failure path triggers a second request. -/
theorem C4_at_most_one_post (c : QwenAPIClient) (p : String) (w : World) :
    (analyze_image c p w).postCount ≤ 1 := by
  unfold analyze_image
  repeat' split
  all_goals simp

/-- **C8.** The client holds no persistent state: `analyze_image` leaves the
client's fields unchanged on every exit path, so a second call with the same
arguments sends the identical request. -/
theorem C8_no_persistent_state (c : QwenAPIClient) (p : String) (w : World) :
    (analyze_image c p w).clientAfter = c ∧
      (analyze_image ((analyze_image c p w).clientAfter) p w).sentPayload
        = (analyze_image c p w).sentPayload := by
  have hc : ∀ c0 : QwenAPIClient, (analyze_image c0 p w).clientAfter = c0 := by
    intro c0
    unfold analyze_image
    repeat' split
    all_goals rfl
  exact ⟨hc c, by rw [hc c]⟩

/-- **C9.** A missing file makes `analyze_image` raise `FileNotFoundError`
(no error dictionary, no request), and an image-encoding failure, also ahead
of the `try` block, likewise propagates as an exception. -/
theorem C9_pre_try_failures (c : QwenAPIClient) (p : String) (w : World) (e : PyExn) :
    (w.fileExists = false →
        (analyze_image c p w).result
            = .error ⟨.fileNotFound, "图片文件不存在: " ++ p⟩ ∧
          (analyze_image c p w).postCount = 0) ∧
      (w.fileExists = true → w.pilJpegBytes = .error e →
        (analyze_image c p w).result = .error e ∧
          (analyze_image c p w).postCount = 0) := by
  constructor
  · intro hf
    unfold analyze_image
    simp [hf]
  · intro hf he
    unfold analyze_image
    simp [hf, he]

/-- A world whose image file is missing. -/
def worldMissingFile : World :=
  { fileExists := false
    pilJpegBytes := .ok []
    httpPost := fun _ => .error ⟨.requestException, "unreachable"⟩
    jsonLoads := fun _ => .error "unreachable" }

/-- A world whose image file exists but PIL fails to serialize it. -/
def worldBadImage : World :=
  { worldMissingFile with
    fileExists := true
    pilJpegBytes := .error ⟨.typeError, "cannot write mode P as JPEG"⟩ }

/-- Witness for C9: both pre-`try` failures at concrete worlds. -/
theorem C9_pre_try_failures_witness :
    ((analyze_image (initClient "k") "a.jpg" worldMissingFile).result
        = .error ⟨.fileNotFound, "图片文件不存在: " ++ "a.jpg"⟩ ∧
      (analyze_image (initClient "k") "a.jpg" worldMissingFile).postCount = 0) ∧
    ((analyze_image (initClient "k") "b.jpg" worldBadImage).result
        = .error ⟨.typeError, "cannot write mode P as JPEG"⟩ ∧
      (analyze_image (initClient "k") "b.jpg" worldBadImage).postCount = 0) :=
  ⟨(C9_pre_try_failures (initClient "k") "a.jpg" worldMissingFile
      ⟨.typeError, "unused"⟩).1 rfl,
   (C9_pre_try_failures (initClient "k") "b.jpg" worldBadImage
      ⟨.typeError, "cannot write mode P as JPEG"⟩).2 rfl rfl⟩

/-- **C10.** The model name placed in the request payload is
`available_models.get(self.model, self.model)`: the alias
`"qwen2.5-vl-32b"` maps to `"qwen-vl-plus"`, `"qwen2.5-vl-72b"` to
`"qwen-vl-max"`, and any other model string passes through unchanged; and
the payload `analyze_image` actually sends is `buildPayload` of the encoded
image. -/
theorem C10_model_name_resolution (apiKey m p b64 : String) (w : World) (jb : List Nat) :
    (w.fileExists = true → w.pilJpegBytes = .ok jb →
        (analyze_image (initClient apiKey m) p w).sentPayload
          = some (buildPayload (initClient apiKey m) (encode_image_to_base64 jb))) ∧
      (buildPayload (initClient apiKey m) b64).model
        = (if m = "qwen2.5-vl-32b" then "qwen-vl-plus"
           else if m = "qwen2.5-vl-72b" then "qwen-vl-max" else m) := by
  constructor
  · intro hf hj
    unfold analyze_image
    simp only [hf, hj]
    rw [if_neg (by simp)]
  · simp [buildPayload, initClient, dictGetD]

/-- A world in which the image exists and encodes but the HTTP request
fails. -/
def worldRequestFails : World :=
  { fileExists := true
    pilJpegBytes := .ok [1, 2, 3]
    httpPost := fun _ => .error ⟨.requestException, "timeout"⟩
    jsonLoads := fun _ => .error "unreachable" }

/-- Witness for C10 at the alias `"qwen2.5-vl-32b"`. -/
theorem C10_model_name_resolution_witness :
    (analyze_image (initClient "k" "qwen2.5-vl-32b") "img.jpg" worldRequestFails).sentPayload
        = some (buildPayload (initClient "k" "qwen2.5-vl-32b") (encode_image_to_base64 [1, 2, 3])) ∧
      (buildPayload (initClient "k" "qwen2.5-vl-32b") "QUJD").model = "qwen-vl-plus" :=
  ⟨(C10_model_name_resolution "k" "qwen2.5-vl-32b" "img.jpg" "QUJD"
      worldRequestFails [1, 2, 3]).1 rfl rfl,
   ((C10_model_name_resolution "k" "qwen2.5-vl-32b" "img.jpg" "QUJD"
      worldRequestFails [1, 2, 3]).2).trans (by decide)⟩

/-- A world whose image file is missing, for the C1 counterexample. -/
def worldFileAbsent : World :=
  { fileExists := false
    pilJpegBytes := .ok []
    httpPost := fun _ => .ok .null
    jsonLoads := fun _ => .error "unreachable" }

/-- Counterexample to C1 as stated: the file-existence check fails and
`analyze_image` lets `FileNotFoundError` propagate to the caller instead of
returning a dictionary with an `"error"` key. -/
theorem C1_counterexample :
    (analyze_image (initClient "key") "missing.jpg" worldFileAbsent).result
      = .error ⟨.fileNotFound, "图片文件不存在: " ++ "missing.jpg"⟩ := rfl

/-- **C1 (amended).** Once execution reaches the `try` block — the file
exists and the image encodes — no exception propagates: the call returns a
value, and on every failure path (HTTP request, malformed API response,
non-string content, JSON decoding) that value is a dictionary with an
`"error"` key; the only other possibility is the successfully parsed JSON.
(File-check and image-encoding failures, by contrast, raise: see C9.) -/
theorem C1_try_failures_error_dict (c : QwenAPIClient) (p : String) (w : World)
    (jb : List Nat) (hf : w.fileExists = true) (hj : w.pilJpegBytes = .ok jb) :
    ∃ v, (analyze_image c p w).result = .ok v ∧
      (isErrorDict v = true ∨
        ∃ r s, w.httpPost (buildPayload c (encode_image_to_base64 jb)) = .ok r ∧
          checkOutputChoices r = .ok true ∧ contentStr r = .ok s ∧
          w.jsonLoads (stripFences s) = .ok v) := by
  have hres : analyze_image c p w
      = { result := .ok (tryResult w
            (w.httpPost (buildPayload c (encode_image_to_base64 jb)))).1,
          clientAfter := c,
          sentPayload := some (buildPayload c (encode_image_to_base64 jb)),
          postCount := 1,
          parseCount := (tryResult w
            (w.httpPost (buildPayload c (encode_image_to_base64 jb)))).2 } := by
    unfold analyze_image
    rw [if_neg (by simp [hf]), hj]
  refine ⟨(tryResult w (w.httpPost (buildPayload c (encode_image_to_base64 jb)))).1,
    by rw [hres], ?_⟩
  cases hpost : w.httpPost (buildPayload c (encode_image_to_base64 jb)) with
  | error e => exact Or.inl (by simp [tryResult, isErrorDict_outerCatch])
  | ok r =>
      cases hchk : checkOutputChoices r with
      | error e => exact Or.inl (by simp [tryResult, hchk, isErrorDict_outerCatch])
      | ok b =>
          cases b with
          | false =>
              exact Or.inl (by simp [tryResult, hchk, isErrorDict, hasField, lookupField])
          | true =>
              cases hcs : contentStr r with
              | error e =>
                  exact Or.inl (by simp [tryResult, hchk, hcs, isErrorDict_outerCatch])
              | ok s =>
                  cases hjl : w.jsonLoads (stripFences s) with
                  | ok v =>
                      exact Or.inr ⟨r, s, rfl, hchk, hcs,
                        by simp [tryResult, hchk, hcs, hjl]⟩
                  | error msg =>
                      exact Or.inl
                        (by simp [tryResult, hchk, hcs, hjl, isErrorDict, hasField, lookupField])

/-- Witness for the amended C1: in `worldRequestFails` the call returns the
`请求失败` error dictionary. -/
theorem C1_try_failures_error_dict_witness :
    ∃ v, (analyze_image (initClient "k") "img.jpg" worldRequestFails).result = .ok v ∧
      (isErrorDict v = true ∨
        ∃ r s, worldRequestFails.httpPost
            (buildPayload (initClient "k") (encode_image_to_base64 [1, 2, 3])) = .ok r ∧
          checkOutputChoices r = .ok true ∧ contentStr r = .ok s ∧
          worldRequestFails.jsonLoads (stripFences s) = .ok v) :=
  C1_try_failures_error_dict (initClient "k") "img.jpg" worldRequestFails [1, 2, 3] rfl rfl

/-- **C2.** When the response body has `output.choices` and the message
content is a string, `analyze_image` makes exactly one JSON parse attempt:
if the fence-stripped content parses, the parsed value is returned as is;
if the single parse fails, the returned dictionary is exactly
`{"error": "JSON解析失败", "raw_content": <the stripped content>}`. -/
theorem C2_single_parse_attempt (c : QwenAPIClient) (p : String) (w : World)
    (jb : List Nat) (r : JsonVal) (s : List Char)
    (hf : w.fileExists = true) (hj : w.pilJpegBytes = .ok jb)
    (hpost : w.httpPost (buildPayload c (encode_image_to_base64 jb)) = .ok r)
    (hchk : checkOutputChoices r = .ok true) (hcs : contentStr r = .ok s) :
    (∀ v, w.jsonLoads (stripFences s) = .ok v →
        (analyze_image c p w).result = .ok v ∧
          (analyze_image c p w).parseCount = 1) ∧
      (∀ msg, w.jsonLoads (stripFences s) = .error msg →
        (analyze_image c p w).result
            = .ok (.obj [("error", .str "JSON解析失败"),
                ("raw_content", .str (String.mk (stripFences s)))]) ∧
          (analyze_image c p w).parseCount = 1) := by
  have hres : analyze_image c p w
      = { result := .ok (tryResult w
            (w.httpPost (buildPayload c (encode_image_to_base64 jb)))).1,
          clientAfter := c,
          sentPayload := some (buildPayload c (encode_image_to_base64 jb)),
          postCount := 1,
          parseCount := (tryResult w
            (w.httpPost (buildPayload c (encode_image_to_base64 jb)))).2 } := by
    unfold analyze_image
    rw [if_neg (by simp [hf]), hj]
  constructor
  · intro v hv
    rw [hres]
    simp [tryResult, hpost, hchk, hcs, hv]
  · intro msg hmsg
    rw [hres]
    simp [tryResult, hpost, hchk, hcs, hmsg]

/-- A well-formed API response whose message content is the JSON text of an
empty object. -/
def responseOk : JsonVal :=
  .obj [("output", .obj [("choices", .arr [.obj [("message",
      .obj [("content", .str "\x7b\x7d")])]])])]

/-- A world that returns `responseOk` and parses only the text of the empty
object. -/
def worldParsedOk : World :=
  { fileExists := true
    pilJpegBytes := .ok [1, 2, 3]
    httpPost := fun _ => .ok responseOk
    jsonLoads := fun t =>
      if t = "\x7b\x7d".data then .ok (.obj []) else .error "Expecting value" }

/-- Witness for C2: the successful-parse half at a concrete response. -/
theorem C2_single_parse_attempt_witness :
    (analyze_image (initClient "k") "img.jpg" worldParsedOk).result = .ok (.obj []) ∧
      (analyze_image (initClient "k") "img.jpg" worldParsedOk).parseCount = 1 :=
  (C2_single_parse_attempt (initClient "k") "img.jpg" worldParsedOk [1, 2, 3]
      responseOk ("\x7b\x7d".data) rfl rfl rfl rfl rfl).1 (.obj []) rfl

/-! ## Lemmas about the fence-stripping helpers -/

/-- A list starts with its own prefix. -/
theorem pyStartswith_append (p s : List Char) : pyStartswith (p ++ s) p = true := by
  induction p with
  | nil => simp [pyStartswith]
  | cons c p ih => simp [pyStartswith, ih]

/-- A list ends with its own suffix. -/
theorem pyEndswith_append (b t : List Char) : pyEndswith (b ++ t) t = true := by
  simp only [pyEndswith, List.reverse_append]
  exact pyStartswith_append _ _

/-- Dropping a suffix of length `n` from `b ++ t` with `t.length = n`
recovers `b`. -/
theorem pyDropRight_append (b t : List Char) : pyDropRight t.length (b ++ t) = b := by
  simp only [pyDropRight, List.reverse_append]
  rw [← List.length_reverse t, List.drop_left, List.reverse_reverse]

/-- Removing a trailing whitespace character commutes out of `rstrip`. -/
theorem rstripChars_append_space (u : List Char) (c : Char) (hc : pyIsSpace c = true) :
    rstripChars (u ++ [c]) = rstripChars u := by
  simp [rstripChars, List.reverse_append, List.dropWhile_cons, hc]

/-- Splitting `lstrip` over an append: either the prefix survives, or it is
all whitespace and `lstrip` moves to the tail. -/
theorem lstripChars_append (s t : List Char) :
    lstripChars (s ++ t) = lstripChars s ++ t ∨
      (lstripChars s = [] ∧ lstripChars (s ++ t) = lstripChars t) := by
  induction s with
  | nil => exact Or.inr ⟨rfl, rfl⟩
  | cons c s ih =>
      by_cases hc : pyIsSpace c = true
      · simpa [lstripChars, List.dropWhile_cons, hc] using ih
      · exact Or.inl (by simp [lstripChars, List.dropWhile_cons, hc])

/-- Stripping is unaffected by one wrapping newline on each side. -/
theorem pyStrip_wrap_newline (mid : List Char) :
    pyStrip ('\x0a' :: (mid ++ ['\x0a'])) = pyStrip mid := by
  unfold pyStrip
  have hnl : pyIsSpace '\x0a' = true := rfl
  have h1 : lstripChars ('\x0a' :: (mid ++ ['\x0a'])) = lstripChars (mid ++ ['\x0a']) := by
    simp [lstripChars, List.dropWhile_cons, hnl]
  rw [h1]
  rcases lstripChars_append mid ['\x0a'] with h | ⟨h2, h3⟩
  · rw [h]
    exact rstripChars_append_space _ _ hnl
  · rw [h3, h2]
    rfl

/-- Counterexample to C3 as stated: a content string wrapped in bare
markdown fences keeps its opening fence — only the closing fence and the
whitespace go — so the inner JSON is not what gets parsed. -/
theorem C3_counterexample :
    stripFences ("```\x0a\x7b\x7d\x0a```".data) = "```\x0a\x7b\x7d".data ∧
      (stripFences ("```\x0a\x7b\x7d\x0a```".data) == "\x7b\x7d".data) = false := by
  decide

/-- **C3 (amended).** The opening fence is removed only when it is exactly
the seven characters of a backtick-backtick-backtick-`json` marker: for
content of that shape the opening marker, the closing fence and the
wrapping whitespace all disappear, and the inner text (whitespace-trimmed)
is what gets parsed. -/
theorem C3_json_fence_stripped (mid : List Char) :
    stripFences ("```json".data ++ ('\x0a' :: (mid ++ ('\x0a' :: "```".data))))
      = pyStrip mid := by
  unfold stripFences stripJsonOpenFence stripCloseFence
  rw [if_pos (pyStartswith_append _ _)]
  have h7 : ("```json".data : List Char).length = 7 := by decide
  rw [← h7, List.drop_left]
  have he : ('\x0a' :: (mid ++ ('\x0a' :: "```".data)))
      = ('\x0a' :: (mid ++ ['\x0a'])) ++ "```".data := by simp
  rw [he, if_pos (pyEndswith_append _ _)]
  have h3 : (3 : Nat) = ("```".data : List Char).length := by decide
  rw [h3, pyDropRight_append]
  exact pyStrip_wrap_newline mid

/-! ## Prompt comparison and the prompt's JSON schema -/

/-- Mapping the full-width quotation marks to the ASCII double quote. -/
def asciiQuoteOf (c : Char) : Char :=
  if c = '“' ∨ c = '”' then '"' else c

set_option maxRecDepth 100000

/-- Counterexample to C5 as stated: the two scripts' instruction strings are
not character-for-character equal. -/
theorem C5_counterexample : (qwen_ask_prompt == create_prompt) = false := by decide

/-- **C5 (amended).** The two instruction strings agree except for the
quotation marks around `yes`/`no` in task 3: `qwen_ask.py` uses the
full-width marks where `qwen_ask_api.py` uses the ASCII double quote, and
mapping the former to the latter makes the strings equal character for
character. -/
theorem C5_prompts_equal_modulo_quotes :
    qwen_ask_prompt.data.map asciiQuoteOf = create_prompt.data := by decide

/-- The five scenario flags requested by the prompt. -/
def scenarioKeys : List String :=
  ["junction", "straight_road", "ramp_entrance", "ramp_exit", "curve"]

/-- The twelve object-presence flags requested by the prompt. -/
def criticalObjectKeys : List String :=
  ["nearby_vehicle", "pedestrian", "cyclist", "construction", "traffic_element",
   "weather_condition", "road_hazard", "emergency_vehicle", "animal",
   "special_vehicle", "conflicting_vehicle", "door_opening_vehicle"]

/-- One line of the requested JSON template: a key constrained to
`"yes | no"`. -/
def yesNoLine (k : String) : String :=
  "\"" ++ k ++ "\": \"yes | no\""

/-- A block of the template: the key lines, comma-separated. -/
def renderBlock (keys : List String) : String :=
  String.intercalate ",\x0a" (keys.map yesNoLine)

/-- The strict-JSON template with exactly the two top-level keys
`scenarios` and `critical_objects` and exactly the given flags under
them. -/
def renderTemplate (scen objKeys : List String) : String :=
  "\x7b\x0a\"scenarios\": \x7b\x0a" ++ renderBlock scen
    ++ "\x0a\x7d,\x0a\"critical_objects\": \x7b\x0a" ++ renderBlock objKeys
    ++ "\x0a\x7d\x0a\x7d"

/-- The text of `create_prompt` before its JSON template. -/
def promptPreamble : String :=
  "你是一位驾驶场景标注专家。\n\n输入：\n1. 输入图片是车载相机拍摄的一张图片。\n\n任务：\n1. 检查你当前所处的地方是否是以下位置：\n- 路口\n- 直路\n- 匝道\n- 弯道\n\n2. 检查图片中是否存在以下物体。车辆（vehicle）可以是汽车、公交车、卡车、摩托车手、滑板车等。交通元素（traffic_element）包括交通标志和交通信号灯。道路危险（road_hazard）可能包括危险道路条件、道路碎片、障碍物等。冲突车辆（conflicting_vehicle）是指可能与自车未来路径发生潜在冲突的车辆。需审计的对象类别：\n- nearby_vehicle (附近车辆)\n- pedestrian (行人)\n- cyclist (骑行者)\n- construction (施工)\n- traffic_element (交通元素)\n- weather_condition (天气条件)\n- road_hazard (道路危险)\n- emergency_vehicle (紧急车辆)\n- animal (动物)\n- special_vehicle (特殊车辆)\n- conflicting_vehicle (冲突车辆)\n- door_opening_vehicle (开门车辆)\n3. 对每个类别输出\"yes\"或\"no\"（不能遗漏）。\n\n输出格式（严格的JSON，无额外键，无注释）：\n\n"

/-- The text of the `qwen_ask.py` instruction before its JSON template. -/
def qwenAskPreamble : String :=
  "你是一位驾驶场景标注专家。\n\n输入：\n1. 输入图片是车载相机拍摄的一张图片。\n\n任务：\n1. 检查你当前所处的地方是否是以下位置：\n- 路口\n- 直路\n- 匝道\n- 弯道\n\n2. 检查图片中是否存在以下物体。车辆（vehicle）可以是汽车、公交车、卡车、摩托车手、滑板车等。交通元素（traffic_element）包括交通标志和交通信号灯。道路危险（road_hazard）可能包括危险道路条件、道路碎片、障碍物等。冲突车辆（conflicting_vehicle）是指可能与自车未来路径发生潜在冲突的车辆。需审计的对象类别：\n- nearby_vehicle (附近车辆)\n- pedestrian (行人)\n- cyclist (骑行者)\n- construction (施工)\n- traffic_element (交通元素)\n- weather_condition (天气条件)\n- road_hazard (道路危险)\n- emergency_vehicle (紧急车辆)\n- animal (动物)\n- special_vehicle (特殊车辆)\n- conflicting_vehicle (冲突车辆)\n- door_opening_vehicle (开门车辆)\n3. 对每个类别输出“yes”或“no”（不能遗漏）。\n\n输出格式（严格的JSON，无额外键，无注释）：\n\n"

/-- **C7.** Both prompts request a strict JSON object over the fixed
taxonomy: each ends in the template with exactly the two top-level keys
`scenarios` (five distinct flags) and `critical_objects` (twelve distinct
flags), every flag constrained to `"yes | no"`, and no other keys. -/
theorem C7_prompt_schema :
    create_prompt = promptPreamble ++ renderTemplate scenarioKeys criticalObjectKeys ∧
      qwen_ask_prompt = qwenAskPreamble ++ renderTemplate scenarioKeys criticalObjectKeys ∧
      scenarioKeys.length = 5 ∧ criticalObjectKeys.length = 12 ∧
      scenarioKeys.Nodup ∧ criticalObjectKeys.Nodup := by
  refine ⟨by decide, by decide, rfl, rfl, by decide, by decide⟩
